import Mathlib

/-
Verification of the House-Hunting repository scoring logic.

The three scorers embedded here are taken from:
  * quick_start_scorer.py          (class QuickHouseScorer)
  * all_in_one_house_hunter.py     (class AdvancedHouseScorer)
  * comprehensive_data_collector.py (class AdvancedHouseScorer)

Python floats are modelled as exact rationals (ℚ).  The geodesic distance
returned by the external geopy library is abstracted as a nonnegative
rational input `distance_miles`; every scoring formula downstream of the
geodesic call is embedded exactly.  Python `round(x, 3)` is modelled by
round-half-to-even on rationals (ties at the third decimal never occur in
any value considered below).
-/

namespace HouseHunting

/-- Round-half-to-even on rationals, modelling Python builtin round to an
integer (Python uses banker's rounding). -/
def roundHalfEven (q : ℚ) : ℤ :=
  if q - ⌊q⌋ < 1/2 then ⌊q⌋
  else if 1/2 < q - ⌊q⌋ then ⌊q⌋ + 1
  else if ⌊q⌋ % 2 = 0 then ⌊q⌋ else ⌊q⌋ + 1

/-- Model of Python round(x, 3). -/
def round3 (q : ℚ) : ℚ := (roundHalfEven (q * 1000) : ℚ) / 1000

theorem roundHalfEven_ge_floor (q : ℚ) : ⌊q⌋ ≤ roundHalfEven q := by
  unfold roundHalfEven
  split
  · exact le_refl _
  · split
    · omega
    · split <;> omega

theorem roundHalfEven_le_ceil (q : ℚ) : roundHalfEven q ≤ ⌈q⌉ := by
  unfold roundHalfEven
  have hfc : (⌊q⌋ : ℤ) ≤ ⌈q⌉ := Int.floor_le_ceil q
  split
  · exact hfc
  · rename_i h1
    push_neg at h1
    have hq : (⌊q⌋ : ℚ) < q := by
      have : (0:ℚ) < 1/2 := by norm_num
      nlinarith [h1]
    have hne : ¬ (q = (⌊q⌋ : ℚ)) := by intro h; rw [h] at hq; exact lt_irrefl _ hq
    have : ⌊q⌋ + 1 ≤ ⌈q⌉ := by
      rcases lt_or_le (⌈q⌉ : ℤ) (⌊q⌋ + 1) with h | h
      · exfalso
        have hce : ⌈q⌉ = ⌊q⌋ := by
          have := Int.floor_le_ceil q
          omega
        have : q ≤ (⌊q⌋ : ℚ) := by
          have := Int.le_ceil q
          rw [hce] at this
          exact_mod_cast this
        exact absurd (le_antisymm this (le_of_lt hq)) hne
      · exact h
    split
    · exact this
    · split <;> omega

theorem round3_mem_unit {q : ℚ} (h0 : 0 ≤ q) (h1 : q ≤ 1) :
    0 ≤ round3 q ∧ round3 q ≤ 1 := by
  unfold round3
  have hlow : (0:ℤ) ≤ ⌊q * 1000⌋ := by
    have : (0:ℚ) ≤ q * 1000 := by nlinarith
    exact Int.floor_nonneg.mpr this
  have hhigh : ⌈q * 1000⌉ ≤ (1000:ℤ) := by
    have : q * 1000 ≤ 1000 := by nlinarith
    exact Int.ceil_le.mpr (by exact_mod_cast this)
  have hge := roundHalfEven_ge_floor (q * 1000)
  have hle := roundHalfEven_le_ceil (q * 1000)
  have h0' : (0:ℤ) ≤ roundHalfEven (q * 1000) := le_trans hlow hge
  have h1' : roundHalfEven (q * 1000) ≤ 1000 := le_trans hle hhigh
  constructor
  · positivity
  · rw [div_le_one (by norm_num : (0:ℚ) < 1000)]
    exact_mod_cast h1'

/-! ## quick_start_scorer.py — class QuickHouseScorer -/

namespace Quick

def max_budget : ℚ := 400000
def max_commute_minutes : ℚ := 30
def min_bedrooms : ℤ := 3
def min_sqft : ℚ := 1200
def min_year_built : ℚ := 2000

def weight_price : ℚ := 0.25
def weight_commute : ℚ := 0.20
def weight_size : ℚ := 0.15
def weight_age : ℚ := 0.15
def weight_value : ℚ := 0.15
def weight_requirements : ℚ := 0.10

/-- QuickHouseScorer.score_price. -/
def score_price (price : ℚ) : ℚ :=
  if price ≤ max_budget then
    1.0 - (price / max_budget) * 0.5
  else
    max 0 (1.0 - (price - max_budget) / max_budget)

/-- QuickHouseScorer.score_commute; the geodesic miles from geopy are
abstracted as the input distance_miles. -/
def score_commute (distance_miles : ℚ) : ℚ :=
  let commute_minutes := distance_miles * 2
  if commute_minutes ≤ max_commute_minutes then
    1.0 - (commute_minutes / max_commute_minutes) * 0.7
  else
    0.0

/-- QuickHouseScorer.score_size. -/
def score_size (sqft : ℚ) : ℚ :=
  if sqft ≥ min_sqft then
    min 1.0 (0.7 + ((sqft - min_sqft) / min_sqft) * 0.3)
  else
    sqft / min_sqft

/-- QuickHouseScorer.score_age. -/
def score_age (year_built : ℚ) : ℚ :=
  if year_built ≥ min_year_built then
    min 1.0 (0.8 + (year_built - min_year_built) * 0.01)
  else
    max 0 (1.0 - (min_year_built - year_built) / 25)

/-- QuickHouseScorer.score_value. -/
def score_value (price sqft : ℚ) : ℚ :=
  let price_per_sqft := price / sqft
  if price_per_sqft ≤ 200 then 1.0
  else if price_per_sqft ≤ 250 then 0.8
  else if price_per_sqft ≤ 300 then 0.6
  else max 0 (0.6 - (price_per_sqft - 300) / 100 * 0.2)

/-- QuickHouseScorer.score_requirements. -/
def score_requirements (bedrooms : ℤ) (has_garage : Bool) (year_built : ℚ) : ℚ :=
  let s1 : ℚ := 1.0
  let s2 := if bedrooms < min_bedrooms then s1 * 0.5 else s1
  let s3 := if has_garage then s2 else s2 * 0.7
  if year_built < 1990 then s3 * 0.8 else s3

/-- House record consumed by QuickHouseScorer.score_house; distance_miles
abstracts geodesic((latitude, longitude), downtown). -/
structure HouseData where
  price : ℚ
  distance_miles : ℚ
  sqft : ℚ
  year_built : ℚ
  bedrooms : ℤ
  has_garage : Bool

/-- Result record of QuickHouseScorer.score_house. -/
structure QuickScores where
  overall_score : ℚ
  price_score : ℚ
  commute_score : ℚ
  size_score : ℚ
  age_score : ℚ
  value_score : ℚ
  requirements_score : ℚ
  is_viable : Bool

/-- The weighted sum computed inside QuickHouseScorer.score_house. -/
def overallScore (p c s a v r : ℚ) : ℚ :=
  p * weight_price + c * weight_commute + s * weight_size +
  a * weight_age + v * weight_value + r * weight_requirements

/-- QuickHouseScorer.score_house. -/
def score_house (h : HouseData) : QuickScores :=
  let price_score := score_price h.price
  let commute_score := score_commute h.distance_miles
  let size_score := score_size h.sqft
  let age_score := score_age h.year_built
  let value_score := score_value h.price h.sqft
  let req_score := score_requirements h.bedrooms h.has_garage h.year_built
  let overall_score := overallScore price_score commute_score size_score
    age_score value_score req_score
  { overall_score := round3 overall_score
    price_score := round3 price_score
    commute_score := round3 commute_score
    size_score := round3 size_score
    age_score := round3 age_score
    value_score := round3 value_score
    requirements_score := round3 req_score
    is_viable := decide (commute_score > 0 ∧ overall_score > 0.6) }

end Quick

/-! ## Recommendation labels

The recommendation strings of the two AdvancedHouseScorer classes are
modelled as an enumeration of the distinct labels. -/

inductive Rec where
  | skip
  | mustSee
  | highlyRecommended
  | goodOption
  | decent
  | belowThreshold
  | scoringFailed
deriving DecidableEq, Repr

/-! ## all_in_one_house_hunter.py — class AdvancedHouseScorer -/

namespace AllInOne

def max_budget : ℚ := 400000
def max_commute_minutes : ℚ := 30
def min_bedrooms : ℤ := 3
def min_sqft : ℚ := 1200
def min_year_built : ℚ := 2000
def needs_garage : Bool := true

def weight_price : ℚ := 0.25
def weight_commute : ℚ := 0.20
def weight_size : ℚ := 0.15
def weight_age : ℚ := 0.15
def weight_location : ℚ := 0.10
def weight_market_timing : ℚ := 0.10
def weight_features : ℚ := 0.05

/-- AdvancedHouseScorer.calculate_commute_score; the geodesic miles from
geopy are abstracted as the input distance_miles. -/
def calculate_commute_score (distance_miles : ℚ) : ℚ :=
  let commute_minutes := distance_miles * 2
  if commute_minutes ≤ max_commute_minutes then
    1.0 - (commute_minutes / max_commute_minutes) * 0.6
  else
    0.0

/-- AdvancedHouseScorer.calculate_price_score. -/
def calculate_price_score (price : ℚ) : ℚ :=
  if price ≤ max_budget then
    1.0 - (price / max_budget) * 0.4
  else
    max 0 (1.0 - ((price - max_budget) / max_budget) * 2)

/-- AdvancedHouseScorer.calculate_size_score. -/
def calculate_size_score (sqft : ℚ) : ℚ :=
  if sqft ≥ min_sqft then
    min 1.0 (0.7 + ((sqft - min_sqft) / min_sqft) * 0.3)
  else
    sqft / min_sqft

/-- AdvancedHouseScorer.calculate_age_score. -/
def calculate_age_score (year_built : ℚ) : ℚ :=
  if year_built ≥ min_year_built then
    min 1.0 (0.8 + (year_built - min_year_built) * 0.01)
  else
    max 0 (1.0 - (min_year_built - year_built) / 30)

def premium_neighborhoods : List String :=
  ["Maple Grove", "Plymouth", "Woodbury", "Eagan"]

/-- AdvancedHouseScorer.calculate_location_score. -/
def calculate_location_score (neighborhood : String)
    (school_rating walk_score : ℚ) : ℚ :=
  let school_score := school_rating / 10.0
  let walk_score_norm := walk_score / 100.0
  let neighborhood_bonus : ℚ :=
    if neighborhood ∈ premium_neighborhoods then 0.2 else 0
  min 1.0 (school_score * 0.6 + walk_score_norm * 0.4 + neighborhood_bonus)

/-- AdvancedHouseScorer.calculate_market_timing_score. -/
def calculate_market_timing_score (days_on_market : ℤ) (price_change : ℚ) : ℚ :=
  let dom_score : ℚ :=
    if days_on_market < 7 then 1.0
    else if days_on_market < 21 then 0.8
    else if days_on_market < 60 then 0.6
    else 0.4
  let price_change_score : ℚ :=
    if price_change < 0 then 1.0
    else if price_change = 0 then 0.8
    else 0.6
  dom_score * 0.7 + price_change_score * 0.3

/-- AdvancedHouseScorer.calculate_features_score. -/
def calculate_features_score (has_garage : Bool) (bedrooms : ℤ)
    (lot_size : ℚ) : ℚ :=
  let s1 : ℚ := 0.5
  let s2 := if needs_garage ∧ has_garage then s1 + 0.3
            else if ¬ needs_garage then s1 + 0.3 else s1
  let s3 := if bedrooms ≥ min_bedrooms then s2 + 0.2 else s2
  let s4 := if lot_size ≥ 8000 then s3 + 0.2
            else if lot_size ≥ 6000 then s3 + 0.1 else s3
  min 1.0 s4

/-- House record consumed by AdvancedHouseScorer.score_house; distance_miles
abstracts geodesic((latitude, longitude), downtown). -/
structure House where
  price : ℚ
  distance_miles : ℚ
  sqft : ℚ
  year_built : ℚ
  neighborhood : String
  school_rating : ℚ
  walk_score : ℚ
  days_on_market : ℤ
  price_change : ℚ
  has_garage : Bool
  bedrooms : ℤ
  lot_size : ℚ

/-- Result record of AdvancedHouseScorer.score_house. -/
structure Scores where
  overall_score : ℚ
  price_score : ℚ
  commute_score : ℚ
  size_score : ℚ
  age_score : ℚ
  location_score : ℚ
  market_score : ℚ
  features_score : ℚ
  meets_requirements : Bool
  recommendation : Rec

/-- AdvancedHouseScorer.get_recommendation. -/
def get_recommendation (score : ℚ) (meets_requirements : Bool) : Rec :=
  if ¬ meets_requirements then .skip
  else if score ≥ 0.85 then .mustSee
  else if score ≥ 0.75 then .highlyRecommended
  else if score ≥ 0.65 then .goodOption
  else if score ≥ 0.55 then .decent
  else .belowThreshold

/-- The weighted sum computed inside AdvancedHouseScorer.score_house. -/
def overallScore (p c s a l m f : ℚ) : ℚ :=
  p * weight_price + c * weight_commute + s * weight_size + a * weight_age +
  l * weight_location + m * weight_market_timing + f * weight_features

/-- AdvancedHouseScorer.score_house. -/
def score_house (h : House) : Scores :=
  let price_score := calculate_price_score h.price
  let commute_score := calculate_commute_score h.distance_miles
  let size_score := calculate_size_score h.sqft
  let age_score := calculate_age_score h.year_built
  let location_score :=
    calculate_location_score h.neighborhood h.school_rating h.walk_score
  let market_score := calculate_market_timing_score h.days_on_market h.price_change
  let features_score := calculate_features_score h.has_garage h.bedrooms h.lot_size
  let overall_score := overallScore price_score commute_score size_score
    age_score location_score market_score features_score
  let meets_requirements :=
    decide (commute_score > 0 ∧ h.bedrooms ≥ min_bedrooms ∧
      (¬ (needs_garage = true) ∨ h.has_garage = true))
  { overall_score := round3 overall_score
    price_score := round3 price_score
    commute_score := round3 commute_score
    size_score := round3 size_score
    age_score := round3 age_score
    location_score := round3 location_score
    market_score := round3 market_score
    features_score := round3 features_score
    meets_requirements := meets_requirements
    recommendation := get_recommendation overall_score meets_requirements }

end AllInOne

/-! ## comprehensive_data_collector.py — class AdvancedHouseScorer

ensure_scoring_compatibility consumes a raw Python dict whose values may be
missing, None, strings, booleans or numbers.  Such a value is modelled by
PyVal (a missing key and a None value are indistinguishable to dict.get, so
pyNone covers both). -/

namespace Comprehensive

inductive PyVal where
  | pyNone
  | pyNum (q : ℚ)
  | pyStr (s : String)
  | pyBool (b : Bool)
deriving DecidableEq, Repr

/-- Value of a list of decimal digit characters. -/
def digitsVal (cs : List Char) : ℚ :=
  cs.foldl (fun a c => a * 10 + ((c.toNat : ℚ) - 48)) 0

/-- Model of Python float applied to an unsigned decimal literal. -/
def parseUnsigned (cs : List Char) : Option ℚ :=
  let intPart := cs.takeWhile (fun c => ¬ c = '.')
  let rest := cs.dropWhile (fun c => ¬ c = '.')
  match rest with
  | [] =>
    if intPart.all Char.isDigit ∧ ¬ intPart = [] then some (digitsVal intPart)
    else none
  | c :: frac =>
    if c = '.' ∧ intPart.all Char.isDigit ∧ frac.all Char.isDigit ∧
        (¬ intPart = [] ∨ ¬ frac = []) then
      some (digitsVal intPart + digitsVal frac / 10 ^ frac.length)
    else none

/-- Model of Python float applied to a string: an optional sign followed by
a decimal literal.  Strings outside this grammar raise ValueError. -/
def parseFloat (s : String) : Option ℚ :=
  match s.data with
  | '-' :: rest => (parseUnsigned rest).map (fun q => -q)
  | '+' :: rest => parseUnsigned rest
  | cs => parseUnsigned cs

/-- Model of Python float(value): numbers pass through, booleans become
0 or 1, strings are parsed, None raises (TypeError). -/
def pyFloat : PyVal → Option ℚ
  | .pyNone => none
  | .pyNum q => some q
  | .pyBool b => some (if b then 1 else 0)
  | .pyStr s => parseFloat s

/-- Model of Python int applied to a float: truncation toward zero. -/
def pyTrunc (q : ℚ) : ℤ := if 0 ≤ q then ⌊q⌋ else ⌈q⌉

/-- The test value is None or value == a blank string or
str(value).lower() == a none literal: only None and strings can pass it. -/
def isNoneLike : PyVal → Bool
  | .pyNone => true
  | .pyStr s => s = "" ∨ s.toLower = "none"
  | _ => false

/-- Model of Python truthiness bool(value). -/
def truthy : PyVal → Bool
  | .pyNone => false
  | .pyNum q => ¬ q = 0
  | .pyStr s => ¬ s = ""
  | .pyBool b => b

/-- Model of Python str(value). -/
def pyToStr : PyVal → String
  | .pyNone => "None"
  | .pyNum q => toString q
  | .pyStr s => s
  | .pyBool b => if b then "True" else "False"

/-- Coercion of one numeric field: default on a none-like value, float
conversion otherwise, default again when the conversion raises. -/
def coerceNum (v : PyVal) (d : ℚ) : ℚ :=
  if isNoneLike v then d else (pyFloat v).getD d

/-- Coercion of a count field (bedrooms, bathrooms): int(float(value)). -/
def coerceInt (v : PyVal) (d : ℤ) : ℤ :=
  if isNoneLike v then d
  else match pyFloat v with
    | some q => pyTrunc q
    | none => d

/-- Coercion of a text field: str(value) if value is truthy else default. -/
def coerceStr (v : PyVal) (d : String) : String :=
  if isNoneLike v then d else if truthy v then pyToStr v else d

/-- Coercion of has_garage: bool(value) if value is a bool, else default. -/
def coerceBool (v : PyVal) (d : Bool) : Bool :=
  if isNoneLike v then d
  else match v with
    | .pyBool b => b
    | _ => d

/-- Raw house dict handed to score_house / ensure_scoring_compatibility. -/
structure RawHouse where
  price : PyVal
  bedrooms : PyVal
  bathrooms : PyVal
  sqft : PyVal
  year_built : PyVal
  latitude : PyVal
  longitude : PyVal
  has_garage : PyVal
  lot_size : PyVal
  days_on_market : PyVal
  price_change : PyVal
  neighborhood : PyVal
  school_rating : PyVal
  walk_score : PyVal
  property_type : PyVal
  address : PyVal

/-- Cleaned record produced by ensure_scoring_compatibility. -/
structure CleanedHouse where
  price : ℚ
  bedrooms : ℤ
  bathrooms : ℤ
  sqft : ℚ
  year_built : ℚ
  latitude : ℚ
  longitude : ℚ
  has_garage : Bool
  lot_size : ℚ
  days_on_market : ℚ
  price_change : ℚ
  neighborhood : String
  school_rating : ℚ
  walk_score : ℚ
  property_type : String
  address : String
deriving DecidableEq, Repr

/-- Field-by-field coercion pass of ensure_scoring_compatibility, using the
default table of the source. -/
def coerceFields (h : RawHouse) : CleanedHouse :=
  { price := coerceNum h.price 350000
    bedrooms := coerceInt h.bedrooms 3
    bathrooms := coerceInt h.bathrooms 2
    sqft := coerceNum h.sqft 1500
    year_built := coerceNum h.year_built 2010
    latitude := coerceNum h.latitude 44.9778
    longitude := coerceNum h.longitude (-93.2650)
    has_garage := coerceBool h.has_garage true
    lot_size := coerceNum h.lot_size 7000
    days_on_market := coerceNum h.days_on_market 30
    price_change := coerceNum h.price_change 0
    neighborhood := coerceStr h.neighborhood "Minneapolis"
    school_rating := coerceNum h.school_rating 8.0
    walk_score := coerceNum h.walk_score 60
    property_type := coerceStr h.property_type "Single Family"
    address := coerceStr h.address "Unknown Address" }

/-- Range-validation pass of ensure_scoring_compatibility: out-of-range
price, sqft and year_built are replaced by their defaults. -/
def validateRanges (c : CleanedHouse) : CleanedHouse :=
  { c with
    price := if c.price < 50000 ∨ c.price > 2000000 then 350000 else c.price
    sqft := if c.sqft < 500 ∨ c.sqft > 10000 then 1500 else c.sqft
    year_built :=
      if c.year_built < 1900 ∨ c.year_built > 2025 then 2010 else c.year_built }

/-- AdvancedHouseScorer.ensure_scoring_compatibility. -/
def ensure_scoring_compatibility (h : RawHouse) : CleanedHouse :=
  validateRanges (coerceFields h)

def max_budget : ℚ := 400000
def max_commute_minutes : ℚ := 30
def min_bedrooms : ℤ := 3
def min_sqft : ℚ := 1200
def min_year_built : ℚ := 2000
def needs_garage : Bool := true

def weight_price : ℚ := 0.25
def weight_commute : ℚ := 0.20
def weight_size : ℚ := 0.15
def weight_age : ℚ := 0.15
def weight_location : ℚ := 0.15
def weight_market : ℚ := 0.10

/-- AdvancedHouseScorer.calculate_price_score. -/
def calculate_price_score (price : ℚ) : ℚ :=
  if price ≤ max_budget then
    1.0 - (price / max_budget) * 0.4
  else
    max 0 (1.0 - (price - max_budget) / max_budget)

/-- AdvancedHouseScorer.calculate_commute_score; the geodesic (or fallback
coordinate-based) miles are abstracted as the input distance_miles. -/
def calculate_commute_score (distance_miles : ℚ) : ℚ :=
  let commute_minutes := distance_miles * 2
  if commute_minutes ≤ max_commute_minutes then
    1.0 - (commute_minutes / max_commute_minutes) * 0.6
  else
    0.2

/-- AdvancedHouseScorer.calculate_size_score. -/
def calculate_size_score (sqft : ℚ) : ℚ :=
  if sqft ≥ min_sqft then
    min 1.0 (0.7 + ((sqft - min_sqft) / min_sqft) * 0.3)
  else
    sqft / min_sqft

/-- AdvancedHouseScorer.calculate_age_score. -/
def calculate_age_score (year_built : ℚ) : ℚ :=
  if year_built ≥ min_year_built then
    min 1.0 (0.8 + (year_built - min_year_built) * 0.01)
  else
    max 0.2 (1.0 - (min_year_built - year_built) / 25)

def premium_areas : List String :=
  ["Plymouth", "Maple Grove", "Woodbury", "Eden Prairie", "Minnetonka"]

/-- AdvancedHouseScorer.calculate_location_score. -/
def calculate_location_score (neighborhood : String) : ℚ :=
  if neighborhood ∈ premium_areas then 0.9 else 0.7

/-- AdvancedHouseScorer.calculate_market_score. -/
def calculate_market_score (days_on_market : ℚ) (price_change : ℚ) : ℚ :=
  let dom_score : ℚ :=
    if days_on_market < 7 then 1.0
    else if days_on_market < 21 then 0.8
    else 0.6
  let change_score : ℚ := if price_change < 0 then 1.0 else 0.8
  (dom_score + change_score) / 2

/-- AdvancedHouseScorer.get_recommendation. -/
def get_recommendation (score : ℚ) (meets_requirements : Bool) : Rec :=
  if ¬ meets_requirements then .skip
  else if score ≥ 0.85 then .mustSee
  else if score ≥ 0.75 then .highlyRecommended
  else if score ≥ 0.65 then .goodOption
  else .belowThreshold

/-- Result record of AdvancedHouseScorer.score_house. -/
structure Scores where
  overall_score : ℚ
  price_score : ℚ
  commute_score : ℚ
  size_score : ℚ
  age_score : ℚ
  location_score : ℚ
  market_score : ℚ
  meets_requirements : Bool
  recommendation : Rec
deriving DecidableEq, Repr

/-- The weighted sum computed inside AdvancedHouseScorer.score_house. -/
def overallScore (p c s a l m : ℚ) : ℚ :=
  p * weight_price + c * weight_commute + s * weight_size + a * weight_age +
  l * weight_location + m * weight_market

/-- Body of AdvancedHouseScorer.score_house (the try branch); distance_miles
abstracts the geodesic miles of the cleaned coordinates. -/
def score_house (h : RawHouse) (distance_miles : ℚ) : Scores :=
  let cleaned := ensure_scoring_compatibility h
  let price_score := calculate_price_score cleaned.price
  let commute_score := calculate_commute_score distance_miles
  let size_score := calculate_size_score cleaned.sqft
  let age_score := calculate_age_score cleaned.year_built
  let location_score := calculate_location_score cleaned.neighborhood
  let market_score := calculate_market_score cleaned.days_on_market cleaned.price_change
  let overall_score := overallScore price_score commute_score size_score
    age_score location_score market_score
  let meets_requirements :=
    decide (cleaned.price ≤ max_budget ∧ cleaned.bedrooms ≥ min_bedrooms ∧
      cleaned.sqft ≥ min_sqft ∧ cleaned.year_built ≥ min_year_built ∧
      (¬ (needs_garage = true) ∨ cleaned.has_garage = true))
  { overall_score := round3 overall_score
    price_score := round3 price_score
    commute_score := round3 commute_score
    size_score := round3 size_score
    age_score := round3 age_score
    location_score := round3 location_score
    market_score := round3 market_score
    meets_requirements := meets_requirements
    recommendation := get_recommendation overall_score meets_requirements }

/-- Record returned by the except branch of score_house. -/
def failRecord : Scores :=
  { overall_score := 0
    price_score := 0
    commute_score := 0
    size_score := 0
    age_score := 0
    location_score := 0
    market_score := 0
    meets_requirements := false
    recommendation := .scoringFailed }

/-- The whole try/except of score_house: an attempt at evaluating the body
either yields its value or an exception, and an exception is mapped to
failRecord instead of being propagated. -/
def scoreHouseSafe (attempt : Except String (RawHouse × ℚ)) : Scores :=
  match attempt with
  | .ok (h, d) => score_house h d
  | .error _ => failRecord

end Comprehensive

/-! ## Claims -/

/-- C1: the claim states that every price strictly over the max budget
scores strictly below the score at exactly the max budget.  The code
computes the over-budget penalty from a baseline of 1.0, so a price just
over budget scores far above the score at the budget: at price 440000 all
three scorers return more than their score at 400000 (0.8 vs 0.6, 0.9 vs
0.6, 0.9 vs 0.5), contradicting the penalty intent documented in the
source comments. -/
theorem C1_over_budget_not_penalized :
    AllInOne.calculate_price_score 400000 = 0.6 ∧
    AllInOne.calculate_price_score 440000 = 0.8 ∧
    ¬ AllInOne.calculate_price_score 440000 < AllInOne.calculate_price_score 400000 ∧
    Comprehensive.calculate_price_score 400000 = 0.6 ∧
    Comprehensive.calculate_price_score 440000 = 0.9 ∧
    ¬ Comprehensive.calculate_price_score 440000 < Comprehensive.calculate_price_score 400000 ∧
    Quick.score_price 400000 = 0.5 ∧
    Quick.score_price 440000 = 0.9 ∧
    ¬ Quick.score_price 440000 < Quick.score_price 400000 := by
  norm_num [AllInOne.calculate_price_score, AllInOne.max_budget,
    Comprehensive.calculate_price_score, Comprehensive.max_budget,
    Quick.score_price, Quick.max_budget]

/-- C2 counterexample: the claim states the commute score is 0 for every
drive time strictly beyond the configured maximum; in
comprehensive_data_collector a distance of 16 miles (drive time 32 > 30
minutes) scores 0.2, not 0. -/
theorem C2_cex_beyond_max_nonzero :
    Comprehensive.calculate_commute_score 16 = 0.2 ∧
    ¬ Comprehensive.calculate_commute_score 16 = 0 := by
  norm_num [Comprehensive.calculate_commute_score, Comprehensive.max_commute_minutes]

/-- C2 (amended): the commute score decreases linearly in estimated drive
time (distance miles times 2) from 1.0 at distance 0 down to 0.4 (both
AdvancedHouseScorer classes) or 0.3 (QuickHouseScorer) at exactly the
maximum commute minutes; strictly beyond the maximum the score is 0 in
all_in_one_house_hunter and quick_start_scorer and 0.2 in
comprehensive_data_collector. -/
theorem C2_commute_linear_falloff :
    (∀ d : ℚ, 2 * d ≤ 30 →
      AllInOne.calculate_commute_score d = 1 - (2 * d / 30) * 0.6 ∧
      Comprehensive.calculate_commute_score d = 1 - (2 * d / 30) * 0.6 ∧
      Quick.score_commute d = 1 - (2 * d / 30) * 0.7) ∧
    AllInOne.calculate_commute_score 0 = 1 ∧
    Quick.score_commute 0 = 1 ∧
    AllInOne.calculate_commute_score 15 = 0.4 ∧
    Comprehensive.calculate_commute_score 15 = 0.4 ∧
    Quick.score_commute 15 = 0.3 ∧
    (∀ d : ℚ, 30 < 2 * d →
      AllInOne.calculate_commute_score d = 0 ∧
      Quick.score_commute d = 0 ∧
      Comprehensive.calculate_commute_score d = 0.2) := by
  refine ⟨?_, ?_, ?_, ?_, ?_, ?_, ?_⟩
  · intro d hd
    refine ⟨?_, ?_, ?_⟩ <;>
      simp only [AllInOne.calculate_commute_score, AllInOne.max_commute_minutes,
        Comprehensive.calculate_commute_score, Comprehensive.max_commute_minutes,
        Quick.score_commute, Quick.max_commute_minutes] <;>
      rw [if_pos (by linarith)] <;> ring
  · norm_num [AllInOne.calculate_commute_score, AllInOne.max_commute_minutes]
  · norm_num [Quick.score_commute, Quick.max_commute_minutes]
  · norm_num [AllInOne.calculate_commute_score, AllInOne.max_commute_minutes]
  · norm_num [Comprehensive.calculate_commute_score, Comprehensive.max_commute_minutes]
  · norm_num [Quick.score_commute, Quick.max_commute_minutes]
  · intro d hd
    refine ⟨?_, ?_, ?_⟩ <;>
      simp only [AllInOne.calculate_commute_score, AllInOne.max_commute_minutes,
        Comprehensive.calculate_commute_score, Comprehensive.max_commute_minutes,
        Quick.score_commute, Quick.max_commute_minutes] <;>
      rw [if_neg (by intro hc; nlinarith)] <;> norm_num

/-- C2 witness: the amended commute theorem applied at distance 10
(within the maximum) and distance 16 (beyond it). -/
theorem C2_commute_witness :
    AllInOne.calculate_commute_score 10 = 1 - (2 * 10 / 30) * 0.6 ∧
    Comprehensive.calculate_commute_score 16 = 0.2 :=
  ⟨(C2_commute_linear_falloff.1 10 (by norm_num)).1,
   (C2_commute_linear_falloff.2.2.2.2.2.2 16 (by norm_num)).2.2⟩

/-- C3: at price 300000 with max budget 400000 the price score of both
AdvancedHouseScorer classes equals 1 - (300000/400000) * 0.4 = 0.70. -/
theorem C3_price_example_300000 :
    AllInOne.calculate_price_score 300000 = 1 - (300000 / 400000) * 0.4 ∧
    AllInOne.calculate_price_score 300000 = 0.70 ∧
    Comprehensive.calculate_price_score 300000 = 0.70 := by
  norm_num [AllInOne.calculate_price_score, AllInOne.max_budget,
    Comprehensive.calculate_price_score, Comprehensive.max_budget]

/-- C7: get_recommendation returns the SKIP label whenever
meets_requirements is false, independently of the score; with
meets_requirements true it returns MUST SEE exactly when the score is at
least 0.85, HIGHLY RECOMMENDED exactly on [0.75, 0.85), and the lower
tiers by the remaining fixed bands of each file (all_in_one: GOOD OPTION
on [0.65, 0.75), DECENT on [0.55, 0.65), BELOW THRESHOLD below 0.55;
comprehensive: GOOD OPTION on [0.65, 0.75), BELOW THRESHOLD below 0.65). -/
theorem C7_recommendation_bands :
    (∀ s : ℚ, AllInOne.get_recommendation s false = .skip ∧
      Comprehensive.get_recommendation s false = .skip) ∧
    (∀ s : ℚ,
      (AllInOne.get_recommendation s true = .mustSee ↔ 0.85 ≤ s) ∧
      (AllInOne.get_recommendation s true = .highlyRecommended ↔ 0.75 ≤ s ∧ s < 0.85) ∧
      (AllInOne.get_recommendation s true = .goodOption ↔ 0.65 ≤ s ∧ s < 0.75) ∧
      (AllInOne.get_recommendation s true = .decent ↔ 0.55 ≤ s ∧ s < 0.65) ∧
      (AllInOne.get_recommendation s true = .belowThreshold ↔ s < 0.55) ∧
      (Comprehensive.get_recommendation s true = .mustSee ↔ 0.85 ≤ s) ∧
      (Comprehensive.get_recommendation s true = .highlyRecommended ↔ 0.75 ≤ s ∧ s < 0.85) ∧
      (Comprehensive.get_recommendation s true = .goodOption ↔ 0.65 ≤ s ∧ s < 0.75) ∧
      (Comprehensive.get_recommendation s true = .belowThreshold ↔ s < 0.65)) := by
  constructor
  · intro s
    constructor <;> simp [AllInOne.get_recommendation, Comprehensive.get_recommendation]
  · intro s
    simp only [AllInOne.get_recommendation, Comprehensive.get_recommendation]
    split_ifs <;> (try simp_all) <;> (repeat' constructor) <;> intros <;> linarith

/-- Concrete house used to witness that QuickHouseScorer viability ignores
the bedroom minimum and garage requirement: 2 bedrooms, no garage. -/
def viableSmallHouse : Quick.HouseData :=
  { price := 200000
    distance_miles := 0
    sqft := 3000
    year_built := 2020
    bedrooms := 2
    has_garage := false }

/-- C10: QuickHouseScorer.score_house marks a house viable exactly when
its commute score is positive and its unrounded overall score exceeds 0.6;
the flag consults neither the bedroom minimum nor the garage requirement,
and a concrete house with 2 bedrooms and no garage is viable. -/
theorem C10_is_viable_ignores_hard_requirements :
    (∀ h : Quick.HouseData,
      (Quick.score_house h).is_viable = true ↔
        (0 < Quick.score_commute h.distance_miles ∧
         0.6 < Quick.overallScore (Quick.score_price h.price)
           (Quick.score_commute h.distance_miles) (Quick.score_size h.sqft)
           (Quick.score_age h.year_built) (Quick.score_value h.price h.sqft)
           (Quick.score_requirements h.bedrooms h.has_garage h.year_built))) ∧
    viableSmallHouse.bedrooms < Quick.min_bedrooms ∧
    viableSmallHouse.has_garage = false ∧
    (Quick.score_house viableSmallHouse).is_viable = true := by
  refine ⟨?_, by decide, by decide, ?_⟩
  · intro h
    simp [Quick.score_house, decide_eq_true_eq]
  · norm_num [Quick.score_house, viableSmallHouse, Quick.score_price,
      Quick.score_commute, Quick.score_size, Quick.score_age, Quick.score_value,
      Quick.score_requirements, Quick.overallScore, Quick.weight_price,
      Quick.weight_commute, Quick.weight_size, Quick.weight_age,
      Quick.weight_value, Quick.weight_requirements, Quick.max_budget,
      Quick.max_commute_minutes, Quick.min_sqft, Quick.min_year_built,
      Quick.min_bedrooms]

/-- C6: in both AdvancedHouseScorer classes, a bedroom count strictly
below the configured minimum forces meets_requirements to false,
independently of the overall score (for comprehensive_data_collector, the
bedroom count is the one on the cleaned record). -/
theorem C6_bedrooms_below_min_fails_requirements :
    (∀ h : AllInOne.House, h.bedrooms < AllInOne.min_bedrooms →
      (AllInOne.score_house h).meets_requirements = false) ∧
    (∀ (h : Comprehensive.RawHouse) (d : ℚ),
      (Comprehensive.ensure_scoring_compatibility h).bedrooms <
        Comprehensive.min_bedrooms →
      (Comprehensive.score_house h d).meets_requirements = false) := by
  constructor
  · intro h hb
    simp [AllInOne.score_house, decide_eq_false_iff_not]
    intro _ hb'
    exact absurd hb' (not_le.mpr hb)
  · intro h d hb
    simp [Comprehensive.score_house, decide_eq_false_iff_not]
    intro _ hb'
    exact absurd hb' (not_le.mpr hb)

/-- Concrete house with 2 bedrooms used to witness C6 for the all_in_one
scorer. -/
def twoBedroomHouse : AllInOne.House :=
  { price := 300000
    distance_miles := 5
    sqft := 1500
    year_built := 2010
    neighborhood := "Plymouth"
    school_rating := 8
    walk_score := 60
    days_on_market := 10
    price_change := 0
    has_garage := true
    bedrooms := 2
    lot_size := 8000 }

/-- Concrete raw house dict with 2 bedrooms used to witness C6 for the
comprehensive scorer. -/
def twoBedroomRaw : Comprehensive.RawHouse :=
  { price := .pyNum 300000
    bedrooms := .pyNum 2
    bathrooms := .pyNum 2
    sqft := .pyNum 1500
    year_built := .pyNum 2010
    latitude := .pyNum 45
    longitude := .pyNum (-93)
    has_garage := .pyBool true
    lot_size := .pyNum 8000
    days_on_market := .pyNum 10
    price_change := .pyNum 0
    neighborhood := .pyStr "Plymouth"
    school_rating := .pyNum 8
    walk_score := .pyNum 60
    property_type := .pyStr "Single Family"
    address := .pyStr "1 Main St" }

/-- C6 witness: both parts of the bedroom-minimum theorem applied to a
concrete 2-bedroom house. -/
theorem C6_bedrooms_witness :
    (AllInOne.score_house twoBedroomHouse).meets_requirements = false ∧
    (Comprehensive.score_house twoBedroomRaw 5).meets_requirements = false :=
  ⟨C6_bedrooms_below_min_fails_requirements.1 twoBedroomHouse (by decide),
   C6_bedrooms_below_min_fails_requirements.2 twoBedroomRaw 5 (by decide)⟩

/-- C4: in every scorer the weights hard-coded in the source sum to 1, and
whenever every per-criterion sub-score lies in [0, 1] the weighted overall
score computed by score_house lies in [0, 1] (and so does its rounded
form, since rounding to three decimals preserves the unit interval). -/
theorem C4_overall_score_in_unit_interval :
    Quick.weight_price + Quick.weight_commute + Quick.weight_size +
      Quick.weight_age + Quick.weight_value + Quick.weight_requirements = 1 ∧
    AllInOne.weight_price + AllInOne.weight_commute + AllInOne.weight_size +
      AllInOne.weight_age + AllInOne.weight_location +
      AllInOne.weight_market_timing + AllInOne.weight_features = 1 ∧
    Comprehensive.weight_price + Comprehensive.weight_commute +
      Comprehensive.weight_size + Comprehensive.weight_age +
      Comprehensive.weight_location + Comprehensive.weight_market = 1 ∧
    (∀ p c s a v r : ℚ, 0 ≤ p → p ≤ 1 → 0 ≤ c → c ≤ 1 → 0 ≤ s → s ≤ 1 →
      0 ≤ a → a ≤ 1 → 0 ≤ v → v ≤ 1 → 0 ≤ r → r ≤ 1 →
      0 ≤ Quick.overallScore p c s a v r ∧ Quick.overallScore p c s a v r ≤ 1) ∧
    (∀ p c s a l m f : ℚ, 0 ≤ p → p ≤ 1 → 0 ≤ c → c ≤ 1 → 0 ≤ s → s ≤ 1 →
      0 ≤ a → a ≤ 1 → 0 ≤ l → l ≤ 1 → 0 ≤ m → m ≤ 1 → 0 ≤ f → f ≤ 1 →
      0 ≤ AllInOne.overallScore p c s a l m f ∧
        AllInOne.overallScore p c s a l m f ≤ 1) ∧
    (∀ p c s a l m : ℚ, 0 ≤ p → p ≤ 1 → 0 ≤ c → c ≤ 1 → 0 ≤ s → s ≤ 1 →
      0 ≤ a → a ≤ 1 → 0 ≤ l → l ≤ 1 → 0 ≤ m → m ≤ 1 →
      0 ≤ Comprehensive.overallScore p c s a l m ∧
        Comprehensive.overallScore p c s a l m ≤ 1) ∧
    (∀ q : ℚ, 0 ≤ q → q ≤ 1 → 0 ≤ round3 q ∧ round3 q ≤ 1) := by
  refine ⟨?_, ?_, ?_, ?_, ?_, ?_, fun q h0 h1 => round3_mem_unit h0 h1⟩
  · norm_num [Quick.weight_price, Quick.weight_commute, Quick.weight_size,
      Quick.weight_age, Quick.weight_value, Quick.weight_requirements]
  · norm_num [AllInOne.weight_price, AllInOne.weight_commute,
      AllInOne.weight_size, AllInOne.weight_age, AllInOne.weight_location,
      AllInOne.weight_market_timing, AllInOne.weight_features]
  · norm_num [Comprehensive.weight_price, Comprehensive.weight_commute,
      Comprehensive.weight_size, Comprehensive.weight_age,
      Comprehensive.weight_location, Comprehensive.weight_market]
  · intro p c s a v r hp0 hp1 hc0 hc1 hs0 hs1 ha0 ha1 hv0 hv1 hr0 hr1
    unfold Quick.overallScore Quick.weight_price Quick.weight_commute
      Quick.weight_size Quick.weight_age Quick.weight_value
      Quick.weight_requirements
    norm_num
    constructor <;> nlinarith
  · intro p c s a l m f hp0 hp1 hc0 hc1 hs0 hs1 ha0 ha1 hl0 hl1 hm0 hm1 hf0 hf1
    unfold AllInOne.overallScore AllInOne.weight_price AllInOne.weight_commute
      AllInOne.weight_size AllInOne.weight_age AllInOne.weight_location
      AllInOne.weight_market_timing AllInOne.weight_features
    norm_num
    constructor <;> nlinarith
  · intro p c s a l m hp0 hp1 hc0 hc1 hs0 hs1 ha0 ha1 hl0 hl1 hm0 hm1
    unfold Comprehensive.overallScore Comprehensive.weight_price
      Comprehensive.weight_commute Comprehensive.weight_size
      Comprehensive.weight_age Comprehensive.weight_location
      Comprehensive.weight_market
    norm_num
    constructor <;> nlinarith

/-- C4 witness: the unit-interval bound applied to the concrete sub-score
vector of one half everywhere, for all three scorers, and to the rounding
of one half. -/
theorem C4_overall_score_witness :
    (0 ≤ Quick.overallScore 0.5 0.5 0.5 0.5 0.5 0.5 ∧
      Quick.overallScore 0.5 0.5 0.5 0.5 0.5 0.5 ≤ 1) ∧
    (0 ≤ AllInOne.overallScore 0.5 0.5 0.5 0.5 0.5 0.5 0.5 ∧
      AllInOne.overallScore 0.5 0.5 0.5 0.5 0.5 0.5 0.5 ≤ 1) ∧
    (0 ≤ Comprehensive.overallScore 0.5 0.5 0.5 0.5 0.5 0.5 ∧
      Comprehensive.overallScore 0.5 0.5 0.5 0.5 0.5 0.5 ≤ 1) ∧
    (0 ≤ round3 0.5 ∧ round3 0.5 ≤ 1) :=
  ⟨C4_overall_score_in_unit_interval.2.2.2.1 0.5 0.5 0.5 0.5 0.5 0.5
      (by norm_num) (by norm_num) (by norm_num) (by norm_num) (by norm_num)
      (by norm_num) (by norm_num) (by norm_num) (by norm_num) (by norm_num)
      (by norm_num) (by norm_num),
   C4_overall_score_in_unit_interval.2.2.2.2.1 0.5 0.5 0.5 0.5 0.5 0.5 0.5
      (by norm_num) (by norm_num) (by norm_num) (by norm_num) (by norm_num)
      (by norm_num) (by norm_num) (by norm_num) (by norm_num) (by norm_num)
      (by norm_num) (by norm_num) (by norm_num) (by norm_num),
   C4_overall_score_in_unit_interval.2.2.2.2.2.1 0.5 0.5 0.5 0.5 0.5 0.5
      (by norm_num) (by norm_num) (by norm_num) (by norm_num) (by norm_num)
      (by norm_num) (by norm_num) (by norm_num) (by norm_num) (by norm_num)
      (by norm_num) (by norm_num),
   C4_overall_score_in_unit_interval.2.2.2.2.2.2 0.5 (by norm_num) (by norm_num)⟩

/-- C9: the try/except wrapper of score_house in
comprehensive_data_collector maps every failed attempt to the fixed
default record (all scores 0, meets_requirements false, the scoring-failed
label) instead of propagating the exception, and maps every successful
attempt to the computed score record; being a total function, it never
raises. -/
theorem C9_score_house_failure_fallback :
    (∀ e : String, Comprehensive.scoreHouseSafe (.error e) = Comprehensive.failRecord) ∧
    (∀ (h : Comprehensive.RawHouse) (d : ℚ),
      Comprehensive.scoreHouseSafe (.ok (h, d)) = Comprehensive.score_house h d) ∧
    Comprehensive.failRecord.overall_score = 0 ∧
    Comprehensive.failRecord.price_score = 0 ∧
    Comprehensive.failRecord.commute_score = 0 ∧
    Comprehensive.failRecord.size_score = 0 ∧
    Comprehensive.failRecord.age_score = 0 ∧
    Comprehensive.failRecord.location_score = 0 ∧
    Comprehensive.failRecord.market_score = 0 ∧
    Comprehensive.failRecord.meets_requirements = false ∧
    Comprehensive.failRecord.recommendation = .scoringFailed :=
  ⟨fun _ => rfl, fun _ _ => rfl, rfl, rfl, rfl, rfl, rfl, rfl, rfl, rfl, rfl⟩

/-- C5: every per-criterion scoring function of the three scorers returns
a value in [0, 1] whenever its numeric inputs lie in the sane real-estate
ranges (price in [50000, 2000000], sqft in [500, 10000], year_built in
[1900, 2025], nonnegative distance, school rating and walk score). -/
theorem C5_subscores_in_unit_interval :
    (∀ p : ℚ, 50000 ≤ p → p ≤ 2000000 →
      0 ≤ AllInOne.calculate_price_score p ∧ AllInOne.calculate_price_score p ≤ 1) ∧
    (∀ d : ℚ, 0 ≤ d →
      0 ≤ AllInOne.calculate_commute_score d ∧ AllInOne.calculate_commute_score d ≤ 1) ∧
    (∀ s : ℚ, 500 ≤ s → s ≤ 10000 →
      0 ≤ AllInOne.calculate_size_score s ∧ AllInOne.calculate_size_score s ≤ 1) ∧
    (∀ y : ℚ, 1900 ≤ y → y ≤ 2025 →
      0 ≤ AllInOne.calculate_age_score y ∧ AllInOne.calculate_age_score y ≤ 1) ∧
    (∀ (n : String) (sr ws : ℚ), 0 ≤ sr → 0 ≤ ws →
      0 ≤ AllInOne.calculate_location_score n sr ws ∧
        AllInOne.calculate_location_score n sr ws ≤ 1) ∧
    (∀ (dom : ℤ) (pc : ℚ),
      0 ≤ AllInOne.calculate_market_timing_score dom pc ∧
        AllInOne.calculate_market_timing_score dom pc ≤ 1) ∧
    (∀ (g : Bool) (b : ℤ) (ls : ℚ),
      0 ≤ AllInOne.calculate_features_score g b ls ∧
        AllInOne.calculate_features_score g b ls ≤ 1) ∧
    (∀ p : ℚ, 50000 ≤ p → p ≤ 2000000 →
      0 ≤ Comprehensive.calculate_price_score p ∧
        Comprehensive.calculate_price_score p ≤ 1) ∧
    (∀ d : ℚ, 0 ≤ d →
      0 ≤ Comprehensive.calculate_commute_score d ∧
        Comprehensive.calculate_commute_score d ≤ 1) ∧
    (∀ s : ℚ, 500 ≤ s → s ≤ 10000 →
      0 ≤ Comprehensive.calculate_size_score s ∧
        Comprehensive.calculate_size_score s ≤ 1) ∧
    (∀ y : ℚ, 1900 ≤ y → y ≤ 2025 →
      0 ≤ Comprehensive.calculate_age_score y ∧
        Comprehensive.calculate_age_score y ≤ 1) ∧
    (∀ n : String,
      0 ≤ Comprehensive.calculate_location_score n ∧
        Comprehensive.calculate_location_score n ≤ 1) ∧
    (∀ dom pc : ℚ,
      0 ≤ Comprehensive.calculate_market_score dom pc ∧
        Comprehensive.calculate_market_score dom pc ≤ 1) ∧
    (∀ p : ℚ, 50000 ≤ p → p ≤ 2000000 →
      0 ≤ Quick.score_price p ∧ Quick.score_price p ≤ 1) ∧
    (∀ d : ℚ, 0 ≤ d →
      0 ≤ Quick.score_commute d ∧ Quick.score_commute d ≤ 1) ∧
    (∀ s : ℚ, 500 ≤ s → s ≤ 10000 →
      0 ≤ Quick.score_size s ∧ Quick.score_size s ≤ 1) ∧
    (∀ y : ℚ, 1900 ≤ y → y ≤ 2025 →
      0 ≤ Quick.score_age y ∧ Quick.score_age y ≤ 1) ∧
    (∀ p s : ℚ, 50000 ≤ p → p ≤ 2000000 → 500 ≤ s → s ≤ 10000 →
      0 ≤ Quick.score_value p s ∧ Quick.score_value p s ≤ 1) ∧
    (∀ (b : ℤ) (g : Bool) (y : ℚ),
      0 ≤ Quick.score_requirements b g y ∧ Quick.score_requirements b g y ≤ 1) := by
  refine ⟨?_, ?_, ?_, ?_, ?_, ?_, ?_, ?_, ?_, ?_, ?_, ?_, ?_, ?_, ?_, ?_, ?_, ?_, ?_⟩
  · intro p h1 h2
    simp only [AllInOne.calculate_price_score, AllInOne.max_budget]
    split_ifs with h
    · constructor <;> nlinarith
    · refine ⟨le_max_left 0 _, max_le (by norm_num) (by push_neg at h; nlinarith)⟩
  · intro d hd
    simp only [AllInOne.calculate_commute_score, AllInOne.max_commute_minutes]
    split_ifs with h
    · constructor <;> nlinarith
    · norm_num
  · intro s h1 h2
    simp only [AllInOne.calculate_size_score, AllInOne.min_sqft]
    split_ifs with h
    · exact ⟨le_min (by norm_num) (by nlinarith), le_trans (min_le_left _ _) (by norm_num)⟩
    · push_neg at h
      constructor <;> nlinarith
  · intro y h1 h2
    simp only [AllInOne.calculate_age_score, AllInOne.min_year_built]
    split_ifs with h
    · exact ⟨le_min (by norm_num) (by nlinarith), le_trans (min_le_left _ _) (by norm_num)⟩
    · push_neg at h
      refine ⟨le_max_left 0 _, max_le (by norm_num) (by nlinarith)⟩
  · intro n sr ws hsr hws
    simp only [AllInOne.calculate_location_score]
    have hb : (0:ℚ) ≤ if n ∈ AllInOne.premium_neighborhoods then (0.2:ℚ) else 0 := by
      split_ifs <;> norm_num
    refine ⟨le_min (by norm_num) (by nlinarith), le_trans (min_le_left _ _) (by norm_num)⟩
  · intro dom pc
    simp only [AllInOne.calculate_market_timing_score]
    split_ifs <;> norm_num
  · intro g b ls
    simp only [AllInOne.calculate_features_score, AllInOne.needs_garage,
      AllInOne.min_bedrooms]
    split_ifs <;>
      refine ⟨le_min (by norm_num) (by norm_num), le_trans (min_le_left _ _) (by norm_num)⟩
  · intro p h1 h2
    simp only [Comprehensive.calculate_price_score, Comprehensive.max_budget]
    split_ifs with h
    · constructor <;> nlinarith
    · refine ⟨le_max_left 0 _, max_le (by norm_num) (by push_neg at h; nlinarith)⟩
  · intro d hd
    simp only [Comprehensive.calculate_commute_score, Comprehensive.max_commute_minutes]
    split_ifs with h
    · constructor <;> nlinarith
    · norm_num
  · intro s h1 h2
    simp only [Comprehensive.calculate_size_score, Comprehensive.min_sqft]
    split_ifs with h
    · exact ⟨le_min (by norm_num) (by nlinarith), le_trans (min_le_left _ _) (by norm_num)⟩
    · push_neg at h
      constructor <;> nlinarith
  · intro y h1 h2
    simp only [Comprehensive.calculate_age_score, Comprehensive.min_year_built]
    split_ifs with h
    · exact ⟨le_min (by norm_num) (by nlinarith), le_trans (min_le_left _ _) (by norm_num)⟩
    · push_neg at h
      refine ⟨le_trans (by norm_num) (le_max_left 0.2 _), max_le (by norm_num) (by nlinarith)⟩
  · intro n
    simp only [Comprehensive.calculate_location_score]
    split_ifs <;> norm_num
  · intro dom pc
    simp only [Comprehensive.calculate_market_score]
    split_ifs <;> norm_num
  · intro p h1 h2
    simp only [Quick.score_price, Quick.max_budget]
    split_ifs with h
    · constructor <;> nlinarith
    · refine ⟨le_max_left 0 _, max_le (by norm_num) (by push_neg at h; nlinarith)⟩
  · intro d hd
    simp only [Quick.score_commute, Quick.max_commute_minutes]
    split_ifs with h
    · constructor <;> nlinarith
    · norm_num
  · intro s h1 h2
    simp only [Quick.score_size, Quick.min_sqft]
    split_ifs with h
    · exact ⟨le_min (by norm_num) (by nlinarith), le_trans (min_le_left _ _) (by norm_num)⟩
    · push_neg at h
      constructor <;> nlinarith
  · intro y h1 h2
    simp only [Quick.score_age, Quick.min_year_built]
    split_ifs with h
    · exact ⟨le_min (by norm_num) (by nlinarith), le_trans (min_le_left _ _) (by norm_num)⟩
    · push_neg at h
      refine ⟨le_max_left 0 _, max_le (by norm_num) (by nlinarith)⟩
  · intro p s h1 h2 h3 h4
    have hs0 : (0:ℚ) < s := by linarith
    simp only [Quick.score_value]
    split_ifs with ha hb hc
    · norm_num
    · norm_num
    · norm_num
    · push_neg at hc
      refine ⟨le_max_left 0 _, max_le (by norm_num) (by nlinarith)⟩
  · intro b g y
    simp only [Quick.score_requirements, Quick.min_bedrooms]
    split_ifs <;> norm_num

/-- C5 witness: the unit-interval bounds applied at concrete in-range
inputs: price 300000, age 1950, a 20-mile commute and value at
300000 over 1500 sqft. -/
theorem C5_subscores_witness :
    (0 ≤ AllInOne.calculate_price_score 300000 ∧
      AllInOne.calculate_price_score 300000 ≤ 1) ∧
    (0 ≤ AllInOne.calculate_age_score 1950 ∧
      AllInOne.calculate_age_score 1950 ≤ 1) ∧
    (0 ≤ Comprehensive.calculate_commute_score 20 ∧
      Comprehensive.calculate_commute_score 20 ≤ 1) ∧
    (0 ≤ Quick.score_value 300000 1500 ∧ Quick.score_value 300000 1500 ≤ 1) :=
  ⟨C5_subscores_in_unit_interval.1 300000 (by norm_num) (by norm_num),
   C5_subscores_in_unit_interval.2.2.2.1 1950 (by norm_num) (by norm_num),
   C5_subscores_in_unit_interval.2.2.2.2.2.2.2.2.1 20 (by norm_num),
   C5_subscores_in_unit_interval.2.2.2.2.2.2.2.2.2.2.2.2.2.2.2.2.2.1 300000 1500
     (by norm_num) (by norm_num) (by norm_num) (by norm_num)⟩

/-- C8: ensure_scoring_compatibility is total (every raw dict yields a
fully populated, type-coerced record instead of a rejection); the returned
price, sqft and year_built always lie in the sane ranges; a coerced value
outside its range is replaced by its fixed default (350000, 1500, 2010)
and an in-range value is kept; a present numeric price is taken from the
record and a missing price falls back to its default. -/
theorem C8_validation_ranges_and_defaults :
    ∀ (h : Comprehensive.RawHouse) (q : ℚ),
      (50000 ≤ (Comprehensive.ensure_scoring_compatibility h).price ∧
       (Comprehensive.ensure_scoring_compatibility h).price ≤ 2000000 ∧
       500 ≤ (Comprehensive.ensure_scoring_compatibility h).sqft ∧
       (Comprehensive.ensure_scoring_compatibility h).sqft ≤ 10000 ∧
       1900 ≤ (Comprehensive.ensure_scoring_compatibility h).year_built ∧
       (Comprehensive.ensure_scoring_compatibility h).year_built ≤ 2025) ∧
      ((Comprehensive.coerceFields h).price < 50000 ∨
          (Comprehensive.coerceFields h).price > 2000000 →
        (Comprehensive.ensure_scoring_compatibility h).price = 350000) ∧
      ((Comprehensive.coerceFields h).sqft < 500 ∨
          (Comprehensive.coerceFields h).sqft > 10000 →
        (Comprehensive.ensure_scoring_compatibility h).sqft = 1500) ∧
      ((Comprehensive.coerceFields h).year_built < 1900 ∨
          (Comprehensive.coerceFields h).year_built > 2025 →
        (Comprehensive.ensure_scoring_compatibility h).year_built = 2010) ∧
      (¬ ((Comprehensive.coerceFields h).price < 50000 ∨
          (Comprehensive.coerceFields h).price > 2000000) →
        (Comprehensive.ensure_scoring_compatibility h).price =
          (Comprehensive.coerceFields h).price) ∧
      (h.price = .pyNum q → (Comprehensive.coerceFields h).price = q) ∧
      (h.price = .pyNone → (Comprehensive.coerceFields h).price = 350000) := by
  intro h q
  refine ⟨⟨?_, ?_, ?_, ?_, ?_, ?_⟩, ?_, ?_, ?_, ?_, ?_, ?_⟩
  · simp only [Comprehensive.ensure_scoring_compatibility, Comprehensive.validateRanges]
    split_ifs with hh
    · norm_num
    · push_neg at hh
      linarith [hh.1]
  · simp only [Comprehensive.ensure_scoring_compatibility, Comprehensive.validateRanges]
    split_ifs with hh
    · norm_num
    · push_neg at hh
      linarith [hh.2]
  · simp only [Comprehensive.ensure_scoring_compatibility, Comprehensive.validateRanges]
    split_ifs with hh
    · norm_num
    · push_neg at hh
      linarith [hh.1]
  · simp only [Comprehensive.ensure_scoring_compatibility, Comprehensive.validateRanges]
    split_ifs with hh
    · norm_num
    · push_neg at hh
      linarith [hh.2]
  · simp only [Comprehensive.ensure_scoring_compatibility, Comprehensive.validateRanges]
    split_ifs with hh
    · norm_num
    · push_neg at hh
      linarith [hh.1]
  · simp only [Comprehensive.ensure_scoring_compatibility, Comprehensive.validateRanges]
    split_ifs with hh
    · norm_num
    · push_neg at hh
      linarith [hh.2]
  · intro hcond
    simp only [Comprehensive.ensure_scoring_compatibility, Comprehensive.validateRanges]
    rw [if_pos hcond]
  · intro hcond
    simp only [Comprehensive.ensure_scoring_compatibility, Comprehensive.validateRanges]
    rw [if_pos hcond]
  · intro hcond
    simp only [Comprehensive.ensure_scoring_compatibility, Comprehensive.validateRanges]
    rw [if_pos hcond]
  · intro hcond
    simp only [Comprehensive.ensure_scoring_compatibility, Comprehensive.validateRanges]
    rw [if_neg hcond]
  · intro hp
    simp [Comprehensive.coerceFields, Comprehensive.coerceNum,
      Comprehensive.isNoneLike, Comprehensive.pyFloat, hp]
  · intro hp
    simp [Comprehensive.coerceFields, Comprehensive.coerceNum,
      Comprehensive.isNoneLike, hp]

/-- Concrete raw dict with a 3000000 price (out of range) used to witness
the range-validation theorem. -/
def overpricedRaw : Comprehensive.RawHouse :=
  { price := .pyNum 3000000
    bedrooms := .pyNum 4
    bathrooms := .pyNum 2
    sqft := .pyNum 2000
    year_built := .pyNum 2015
    latitude := .pyNum 45
    longitude := .pyNum (-93)
    has_garage := .pyBool true
    lot_size := .pyNum 9000
    days_on_market := .pyNum 12
    price_change := .pyNum 0
    neighborhood := .pyStr "Woodbury"
    school_rating := .pyNum 9
    walk_score := .pyNum 70
    property_type := .pyStr "Single Family"
    address := .pyStr "2 Elm St" }

/-- C8 witness: the validation theorem applied to a concrete raw dict
whose price 3000000 exceeds the sane range, so the cleaned price is the
default 350000 and lies in range. -/
theorem C8_validation_witness :
    (Comprehensive.ensure_scoring_compatibility overpricedRaw).price = 350000 ∧
    50 ≤ (Comprehensive.ensure_scoring_compatibility overpricedRaw).price ∧
    (Comprehensive.coerceFields overpricedRaw).price = 3000000 :=
  ⟨(C8_validation_ranges_and_defaults overpricedRaw 3000000).2.1
      (Or.inr (by norm_num [overpricedRaw, Comprehensive.coerceFields,
        Comprehensive.coerceNum, Comprehensive.isNoneLike, Comprehensive.pyFloat])),
   le_trans (by norm_num)
     ((C8_validation_ranges_and_defaults overpricedRaw 3000000).1.1),
   (C8_validation_ranges_and_defaults overpricedRaw 3000000).2.2.2.2.2.1 rfl⟩

end HouseHunting
